import Mathlib

/-!
Shallow embedding of `volatility/framework/plugins/windows/poolscanner.py`
(pool-tag scanning, header validation, version distinguishing, and the
scan orchestration of the `PoolScanner` plugin).

Conventions:
* Python byte strings (pool tags) are `List Nat` of byte values.
* A field read from a memory object that may raise
  `exceptions.InvalidAddressException` is an `Except Unit Nat`
  (`.error ()` models the exception).
* Exceptions escaping a whole operation (`ValueError` from configuration
  problems) are modelled with `Except PyErr`.
* Python truthiness of an `Optional[int]` (`None` and `0` are falsy) is
  the function `truthy`.
-/

namespace Volatility

/-- The Python `ValueError` raised by the configuration checks of
`pool_scan` and `os_distinguisher`. -/
inductive PyErr where
  | valueError
deriving DecidableEq

/-- Pool tags and patterns: Python `bytes` as a list of byte values. -/
abbrev Tag := List Nat

/-- Python truthiness of an `Optional[int]`: `None` and `0` are falsy. -/
def truthy : Option Nat → Bool
  | none => false
  | some v => v != 0

/-- The value of a truthy `Optional[int]` (only used under `truthy`). -/
def optVal : Option Nat → Nat
  | none => 0
  | some v => v

/-- `PoolType.PAGED` of the source's `PoolType` enum. -/
def PoolType.PAGED : Nat := 1

/-- `PoolType.NONPAGED` of the source's `PoolType` enum. -/
def PoolType.NONPAGED : Nat := 2

/-- `PoolType.FREE` of the source's `PoolType` enum. -/
def PoolType.FREE : Nat := 4

/-- The source's `PoolConstraint`: tag/size/index/type information about a
pool header tag.  `page_type` is the flag set (a bitwise-or of the
`PoolType` values); `size` and `index` are optional pairs of optional
bounds, exactly as in the Python constructor. -/
structure PoolConstraint where
  tag : Tag
  type_name : String
  object_type : Option String := none
  page_type : Option Nat := none
  size : Option (Option Nat × Option Nat) := none
  index : Option (Option Nat × Option Nat) := none
  alignment : Nat := 1
deriving DecidableEq

instance {ε α : Type} [DecidableEq ε] [DecidableEq α] : DecidableEq (Except ε α) := fun a b =>
  match a, b with
  | .ok x, .ok y =>
    if h : x = y then .isTrue (congrArg Except.ok h)
    else .isFalse (fun hc => h (Except.ok.inj hc))
  | .error x, .error y =>
    if h : x = y then .isTrue (congrArg Except.error h)
    else .isFalse (fun hc => h (Except.error.inj hc))
  | .ok _, .error _ => .isFalse (fun hc => Except.noConfusion hc)
  | .error _, .ok _ => .isFalse (fun hc => Except.noConfusion hc)

/-- A `_POOL_HEADER` object: each field access goes through the layer and
may raise `InvalidAddressException`, hence `Except Unit Nat` per field. -/
structure PoolHeader where
  BlockSize : Except Unit Nat
  PoolType : Except Unit Nat
  index : Except Unit Nat
deriving DecidableEq

/-- The size check of `PoolHeaderScanner.__call__` (source lines 72-79):
returns `ok true` when the hit must be rejected ("continue"), `ok false`
when the size filter lets it through, `.error` when reading
`header.BlockSize` raises `InvalidAddressException`. -/
def sizeFilterReject (alignment : Nat) (lo hi : Option Nat)
    (blockSize : Except Unit Nat) : Except Unit Bool :=
  let checkHi : Except Unit Bool :=
    if truthy hi then
      match blockSize with
      | .error e => .error e
      | .ok v => .ok (decide (alignment * v > optVal hi))
    else .ok false
  if truthy lo then
    match blockSize with
    | .error e => .error e
    | .ok v => if alignment * v < optVal lo then .ok true else checkHi
  else checkHi

/-- The index check of `PoolHeaderScanner.__call__` (source lines 95-101):
returns `ok true` when the hit must be rejected, `ok false` otherwise,
`.error` when reading `header.index` raises. -/
def indexFilterReject (lo hi : Option Nat) (indexField : Except Unit Nat) :
    Except Unit Bool :=
  let checkHi : Except Unit Bool :=
    if truthy hi then
      match indexField with
      | .error e => .error e
      | .ok v => .ok (decide (v > optVal hi))
    else .ok false
  if truthy lo then
    match indexField with
    | .error e => .error e
    | .ok v => if v < optVal lo then .ok true else checkHi
  else checkHi

/-- The `checks_pass` computation of the page-type check of
`PoolHeaderScanner.__call__` (source lines 82-93), including the
short-circuit evaluation order of the Python `if`/`elif` chain (the
header's `PoolType` field is only read when a flag of the constraint is
set). -/
def pageChecksPass (pt : Nat) (poolTypeField : Except Unit Nat) :
    Except Unit Bool :=
  let tryNonpaged : Except Unit Bool :=
    if pt &&& PoolType.NONPAGED ≠ 0 then
      match poolTypeField with
      | .error e => .error e
      | .ok v => .ok (decide (v % 2 = 1))
    else .ok false
  let tryPaged : Except Unit Bool :=
    if pt &&& PoolType.PAGED ≠ 0 then
      match poolTypeField with
      | .error e => .error e
      | .ok v => if v % 2 = 0 ∧ v > 0 then .ok true else tryNonpaged
    else tryNonpaged
  if pt &&& PoolType.FREE ≠ 0 then
    match poolTypeField with
    | .error e => .error e
    | .ok v => if v = 0 then .ok true else tryPaged
  else tryPaged

/-- The body of the `try` block of `PoolHeaderScanner.__call__` (source
lines 71-107) for one hit: `ok true` means the header passed every
present filter and is yielded, `ok false` means some filter rejected it
("continue"), `.error ()` means a field read raised
`InvalidAddressException` (caught by the caller and treated as a
rejection). -/
def checkHit (alignment : Nat) (c : PoolConstraint) (h : PoolHeader) :
    Except Unit Bool :=
  let afterIndex : Except Unit Bool :=
    match c.index with
    | none => .ok true
    | some b =>
      match indexFilterReject b.1 b.2 h.index with
      | .error e => .error e
      | .ok true => .ok false
      | .ok false => .ok true
  let afterPage : Except Unit Bool :=
    match c.page_type with
    | none => afterIndex
    | some pt =>
      match pageChecksPass pt h.PoolType with
      | .error e => .error e
      | .ok false => .ok false
      | .ok true => afterIndex
  match c.size with
  | none => afterPage
  | some b =>
    match sizeFilterReject alignment b.1 b.2 h.BlockSize with
    | .error e => .error e
    | .ok true => .ok false
    | .ok false => afterPage

/-- The loop of `PoolHeaderScanner.__call__` over the sub-scanner's
`(offset, pattern)` hits: for each hit, construct the `_POOL_HEADER` at
`offset - header_offset` (`headerAt`), look the pattern up in the
constraint dictionary (an association list with insertion order), run the
filters, and yield `(constraint, header)` on success.  A hit whose
validation raises `InvalidAddressException` is skipped. -/
def poolHeaderScannerCall (alignment : Nat) (lookup : List (Tag × PoolConstraint))
    (headerAt : Nat → PoolHeader) (header_offset : Nat)
    (hits : List (Nat × Tag)) : List (PoolConstraint × PoolHeader) :=
  hits.filterMap fun op =>
    match lookup.find? (fun q => q.1 == op.2) with
    | none => none
    | some q =>
      match checkHit alignment q.2 (headerAt (op.1 - header_offset)) with
      | .ok true => some (q.2, headerAt (op.1 - header_offset))
      | .ok false => none
      | .error _ => none

/-- A named type of the symbol space, as seen through
`symbol_space.get_type(...)`: all that the distinguisher uses is
`has_member`. -/
structure TypeModel where
  members : List String
deriving DecidableEq

/-- The view of `context.symbol_space` that `os_distinguisher`'s returned
method uses.  `pe_version st = none` models every failure of the primary
path (`AttributeError`/`ValueError`/`TypeError` while obtaining and
unpacking `metadata.pe_version`); `get_type s = none` models
`exceptions.SymbolError`. -/
structure SymbolSpaceModel where
  pe_version : String → Option (Nat × Nat × Nat × Nat)
  has_symbol : String → Bool
  has_type : String → Bool
  get_type : String → Option TypeModel

/-- `constants.BANG`, the separator between a symbol-table name and a
symbol name.  Modelled from the spec: `volatility.framework.constants` is
outside `src/`; the spec only requires a fixed table-qualified name. -/
def BANG : String := "!"

/-- One iteration of the fallback loop of `os_distinguisher` (source lines
160-172): whether the check `(name, member, response)` passes (the method
returns `False` at the first check that does not pass).  In the
`member`-present branch, a `SymbolError` from `get_type` leads to
`if not response: return False`, i.e. the check passes iff `response`. -/
def fallback_check_passes (ss : SymbolSpaceModel) (symbol_table : String) :
    String × Option String × Bool → Bool
  | (name, none, response) =>
    ((ss.has_symbol (symbol_table ++ BANG ++ name)
      || ss.has_type (symbol_table ++ BANG ++ name)) == response)
  | (name, some member, response) =>
    match ss.get_type (symbol_table ++ BANG ++ name) with
    | some ty => (ty.members.contains member == response)
    | none => response

/-- The method returned by `os_distinguisher` (source lines 110-176):
primary path evaluates `version_check` on the metadata's 4-tuple
`pe_version`; when that metadata is unavailable, an empty
`fallback_checks` raises `ValueError`, otherwise the checks run
top-to-bottom and the first failing check makes the result `False`. -/
def os_distinguisher (version_check : Nat × Nat × Nat × Nat → Bool)
    (fallback_checks : List (String × Option String × Bool))
    (ss : SymbolSpaceModel) (symbol_table : String) : Except PyErr Bool :=
  match ss.pe_version symbol_table with
  | some v => .ok (version_check v)
  | none =>
    if fallback_checks.isEmpty then .error .valueError
    else .ok (fallback_checks.all (fallback_check_passes ss symbol_table))

/-- Python lexicographic comparison `x >= (p, q)` of a 4-tuple of
non-negative integers against a pair: true iff the first component
exceeds `p`, or equals `p` and the second component is at least `q`
(a longer tuple equal on the common prefix compares greater). -/
def tuple4_ge2 (v : Nat × Nat × Nat × Nat) (p : Nat × Nat) : Bool :=
  decide (p.1 < v.1) || (decide (v.1 = p.1) && decide (p.2 ≤ v.2.1))

/-- `PoolScanner.is_windows_10` (source lines 194-195). -/
def is_windows_10 : SymbolSpaceModel → String → Except PyErr Bool :=
  os_distinguisher (fun v => tuple4_ge2 v (10, 0))
    [("ObHeaderCookie", none, true)]

/-- `PoolScanner.is_windows_8_or_later` (source lines 196-197). -/
def is_windows_8_or_later : SymbolSpaceModel → String → Except PyErr Bool :=
  os_distinguisher (fun v => tuple4_ge2 v (6, 2))
    [("_HANDLE_TABLE", some "HandleCount", false)]

/-- A memory layer: its byte contents and its `config['memory_layer']`
(name of the non-virtual layer backing it). -/
structure LayerModel where
  data : List Nat
  memory_layer : String

/-- Modelled from the spec: the Multi-Pattern Scanner (§4.3,
`scanners.MultiStringScanner`, outside `src/`) reports every
`(offset, pattern)` occurrence of every pattern over the data, ordered by
ascending offset. -/
def multiStringScan (data : List Nat) (patterns : List Tag) :
    List (Nat × Tag) :=
  (List.range data.length).flatMap fun off =>
    (patterns.filter fun p => (data.drop off).take p.length == p).map
      fun p => (off, p)

/-- A reconstructed memory object (the result of
`_POOL_HEADER.get_object`), identified by an opaque value. -/
abbrev MemObject := Nat

/-- The external collaborators that `pool_scan` and `generate_pool_scan`
consult, gathered into one immutable context:
* `symspace` — the symbol space used by the version distinguishers;
* `layers` — `context.layers[name]`;
* `type_map`, `cookie` — `handles.Handles.get_type_map` / `find_cookie`
  (modelled from the spec §6: per-image values obtained before the scan);
* `headerAt`, `header_offset` — the `_POOL_HEADER` module resolved by
  `_get_pool_header_module`: the object constructed at an offset of a
  layer, and `relative_child_offset('PoolTag')` (modelled from the spec
  §4.4: header base is `offset - header_to_tag_displacement`);
* `get_object` — `_POOL_HEADER.get_object(type_name, type_map,
  use_top_down, object_type, cookie)` (modelled from the spec §4.6:
  returns `none` when the record cannot be built). -/
structure ScanContext where
  symspace : SymbolSpaceModel
  layers : String → LayerModel
  type_map : List (Nat × String)
  cookie : Option Nat
  headerAt : String → Nat → PoolHeader
  header_offset : Nat
  get_object : PoolHeader → String → List (Nat × String) → Bool →
    Option String → Option Nat → Option MemObject

/-- The duplicate-tag check and dictionary construction at the start of
`pool_scan` (source lines 401-405): insert each constraint keyed by its
tag, raising `ValueError` when the tag is already a key. -/
def buildConstraintLookup : List PoolConstraint →
    List (Tag × PoolConstraint) → Except PyErr (List (Tag × PoolConstraint))
  | [], acc => .ok acc
  | c :: rest, acc =>
    if acc.any (fun q => q.1 == c.tag) then .error .valueError
    else buildConstraintLookup rest (acc ++ [(c.tag, c)])

/-- `PoolScanner.pool_scan` (source lines 375-412): build the constraint
dictionary (raising `ValueError` on a duplicate tag), then run the
`PoolHeaderScanner` over the named layer's data and return every
`(constraint, header)` that passes validation. -/
def pool_scan (ctx : ScanContext) (layer_name symbol_table : String)
    (pool_constraints : List PoolConstraint) (alignment : Nat) :
    Except PyErr (List (PoolConstraint × PoolHeader)) :=
  match buildConstraintLookup pool_constraints [] with
  | .error e => .error e
  | .ok constraint_lookup =>
    .ok (poolHeaderScannerCall alignment constraint_lookup
      (ctx.headerAt layer_name) ctx.header_offset
      (multiStringScan (ctx.layers layer_name).data
        (constraint_lookup.map Prod.fst)))

/-- Byte values of an ASCII string, for the pool tags written as plain
ASCII in the source. -/
def strTag (s : String) : Tag := s.data.map Char.toNat

/-- The built-in catalog of `PoolScanner.builtin_constraints` (source
lines 242-318), in source order; non-ASCII tag bytes are written as hex
literals.  Every entry accepts all three allocation classes
(`PAGED | NONPAGED | FREE = 7`). -/
def builtins (symbol_table : String) : List PoolConstraint :=
  [{ tag := strTag "AtmT",
     type_name := symbol_table ++ BANG ++ "_RTL_ATOM_TABLE",
     size := some (some 200, none), page_type := some 7 },
   { tag := [0x50, 0x72, 0x6F, 0xE3],
     type_name := symbol_table ++ BANG ++ "_EPROCESS",
     object_type := some "Process",
     size := some (some 600, none), page_type := some 7 },
   { tag := strTag "Proc",
     type_name := symbol_table ++ BANG ++ "_EPROCESS",
     object_type := some "Process",
     size := some (some 600, none), page_type := some 7 },
   { tag := [0x46, 0x69, 0x6C, 0xE5],
     type_name := symbol_table ++ BANG ++ "_FILE_OBJECT",
     object_type := some "File",
     size := some (some 150, none), page_type := some 7 },
   { tag := strTag "File",
     type_name := symbol_table ++ BANG ++ "_FILE_OBJECT",
     object_type := some "File",
     size := some (some 150, none), page_type := some 7 },
   { tag := [0x4D, 0x75, 0x74, 0xE1],
     type_name := symbol_table ++ BANG ++ "_KMUTANT",
     object_type := some "Mutant",
     size := some (some 64, none), page_type := some 7 },
   { tag := strTag "Muta",
     type_name := symbol_table ++ BANG ++ "_KMUTANT",
     object_type := some "Mutant",
     size := some (some 64, none), page_type := some 7 },
   { tag := [0x44, 0x72, 0x69, 0xF6],
     type_name := symbol_table ++ BANG ++ "_DRIVER_OBJECT",
     object_type := some "Driver",
     size := some (some 248, none), page_type := some 7 },
   { tag := strTag "Driv",
     type_name := symbol_table ++ BANG ++ "_DRIVER_OBJECT",
     object_type := some "Driver",
     size := some (some 248, none), page_type := some 7 },
   { tag := strTag "MmLd",
     type_name := symbol_table ++ BANG ++ "_LDR_DATA_TABLE_ENTRY",
     size := some (some 76, none), page_type := some 7 },
   { tag := [0x53, 0x79, 0x6D, 0xE2],
     type_name := symbol_table ++ BANG ++ "_OBJECT_SYMBOLIC_LINK",
     object_type := some "SymbolicLink",
     size := some (some 72, none), page_type := some 7 },
   { tag := strTag "Symb",
     type_name := symbol_table ++ BANG ++ "_OBJECT_SYMBOLIC_LINK",
     object_type := some "SymbolicLink",
     size := some (some 72, none), page_type := some 7 },
   { tag := strTag "CM10",
     type_name := symbol_table ++ BANG ++ "_CMHIVE",
     size := some (some 800, none), page_type := some 7 }]

/-- `PoolScanner.builtin_constraints` (source lines 226-323):
`if not tags_filter: return builtins` — `None` and the empty list are
both falsy, so both return the whole catalog; a non-empty filter keeps
exactly the entries whose tag is in the filter list. -/
def builtin_constraints (symbol_table : String)
    (tags_filter : Option (List Tag)) : List PoolConstraint :=
  match tags_filter with
  | none => builtins symbol_table
  | some tf =>
    if tf.isEmpty then builtins symbol_table
    else (builtins symbol_table).filter fun c => tf.contains c.tag

/-- The tail of `PoolScanner.generate_pool_scan` after the scan layer has
been chosen (source lines 360-373): run `pool_scan` with alignment 8 on
`scan_layer`, then for each `(constraint, header)` build the memory
object via `get_object` (passing `use_top_down = is_windows_8_or_later`),
dropping hits whose object cannot be created. -/
def generate_pool_scan_body (ctx : ScanContext)
    (scan_layer symbol_table : String) (constraints : List PoolConstraint)
    (is8 : Bool) :
    Except PyErr (List (PoolConstraint × MemObject × PoolHeader)) :=
  match pool_scan ctx scan_layer symbol_table constraints 8 with
  | .error e => .error e
  | .ok hits =>
    .ok (hits.filterMap fun ch =>
      match ctx.get_object ch.2 ch.1.type_name ctx.type_map is8
          ch.1.object_type ctx.cookie with
      | none => none
      | some m => some (ch.1, m, ch.2))

/-- `PoolScanner.generate_pool_scan` (source lines 325-373): compute the
two version classifications, start from the primary layer and switch to
its `config['memory_layer']` when the image is not Windows 10, then run
the scan-and-reconstruct pipeline. -/
def generate_pool_scan (ctx : ScanContext)
    (layer_name symbol_table : String) (constraints : List PoolConstraint) :
    Except PyErr (List (PoolConstraint × MemObject × PoolHeader)) :=
  match is_windows_10 ctx.symspace symbol_table with
  | .error e => .error e
  | .ok is10 =>
    match is_windows_8_or_later ctx.symspace symbol_table with
    | .error e => .error e
    | .ok is8 =>
      generate_pool_scan_body ctx
        (if is10 then layer_name else (ctx.layers layer_name).memory_layer)
        symbol_table constraints is8

/-- The allocation-class decode table as the specification states it
(§4.4): code 0 is FREE, an even positive code is PAGED, an odd code is
NONPAGED.  Stated from the spec's words, to be compared with the source's
check in `pageChecksPass`. -/
def spec_decode_class (v : Nat) : Nat :=
  if v = 0 then PoolType.FREE
  else if v % 2 = 0 then PoolType.PAGED
  else PoolType.NONPAGED

/-- A header whose fields all read as zero. -/
def hdrZero : PoolHeader := { BlockSize := .ok 0, PoolType := .ok 0, index := .ok 0 }

/-- A header whose `BlockSize` is 20 (effective size `8 * 20 = 160`). -/
def hdrBS20 : PoolHeader := { BlockSize := .ok 20, PoolType := .ok 0, index := .ok 0 }

/-- A header whose `BlockSize` is 5 (effective size `8 * 5 = 40`). -/
def hdrBS5 : PoolHeader := { BlockSize := .ok 5, PoolType := .ok 0, index := .ok 0 }

/-- A header whose `BlockSize` read raises `InvalidAddressException`. -/
def hdrUnreadable : PoolHeader :=
  { BlockSize := .error (), PoolType := .ok 0, index := .ok 0 }

/-- A symbol space whose metadata reports PE version 10.0.0.0. -/
def ss10 : SymbolSpaceModel :=
  { pe_version := fun _ => some (10, 0, 0, 0), has_symbol := fun _ => false,
    has_type := fun _ => false, get_type := fun _ => none }

/-- A symbol space with no version metadata, no symbols and no types
(every type resolution raises `SymbolError`). -/
def ssNoMeta : SymbolSpaceModel :=
  { pe_version := fun _ => none, has_symbol := fun _ => false,
    has_type := fun _ => false, get_type := fun _ => none }

/-- A concrete scan context over an empty layer, used to instantiate the
universally quantified theorems below. -/
def ctx0 : ScanContext :=
  { symspace := ss10,
    layers := fun _ => { data := [], memory_layer := "memory_layer" },
    type_map := [], cookie := none, headerAt := fun _ _ => hdrZero,
    header_offset := 4, get_object := fun _ _ _ _ _ _ => none }

/-- Two constraints sharing the tag `AAAA`. -/
def csDup : List PoolConstraint :=
  [{ tag := [65, 65, 65, 65], type_name := "t1" },
   { tag := [65, 65, 65, 65], type_name := "t2" }]

/-- A constraint with only a page-type filter accepting all three
classes. -/
def cPage7 : PoolConstraint :=
  { tag := [70, 105, 108, 101], type_name := "t", page_type := some 7 }

/-- A constraint with only a minimum size bound of 150. -/
def cSize150 : PoolConstraint :=
  { tag := [70, 105, 108, 101], type_name := "t",
    size := some (some 150, none) }

/-- A constraint whose declared maximum size bound is 0 (falsy in
Python, hence skipped by the validator). -/
def cSizeMaxZero : PoolConstraint :=
  { tag := [70, 105, 108, 101], type_name := "t",
    size := some (none, some 0) }

/-- A constraint with a nonzero minimum size bound, forcing a
`BlockSize` read during validation. -/
def cNeedsBlockSize : PoolConstraint :=
  { tag := [70, 105, 108, 101], type_name := "t",
    size := some (some 10, none) }

/-- A one-entry constraint dictionary for the tag `File`. -/
def lookupFile : List (Tag × PoolConstraint) :=
  [([70, 105, 108, 101], cNeedsBlockSize)]

/-- A header-construction function under which every header is
unreadable. -/
def hdrAtUnreadable : Nat → PoolHeader := fun _ => hdrUnreadable

/-- Claim C1: evaluation of the source's fallback-check code on a check
record with a present member field whose type name cannot be resolved.
The code makes such a check pass iff `expected_presence` is TRUE
(`if not response: return False` in the `SymbolError` handler), the
opposite of the claim and of the function's own docstring note, which
says a member required to be absent also passes when the whole type is
absent.  Consequently `is_windows_8_or_later`, whose single fallback
check is `("_HANDLE_TABLE", "HandleCount", False)`, classifies an image
without a resolvable `_HANDLE_TABLE` as `False`. -/
theorem member_check_unresolved_type_eval :
    fallback_check_passes ssNoMeta "nt"
        ("_HANDLE_TABLE", some "HandleCount", false) = false ∧
    fallback_check_passes ssNoMeta "nt"
        ("_HANDLE_TABLE", some "HandleCount", true) = true ∧
    is_windows_8_or_later ssNoMeta "nt" = .ok false :=
  ⟨rfl, rfl, rfl⟩

/-- Claim C5 (counterexample): with an empty tags filter,
`builtin_constraints` does not return an empty list (it returns the full
catalog, because `if not tags_filter` treats the empty list like
`None`). -/
theorem empty_filter_returns_catalog_counterexample :
    builtin_constraints "nt" (some []) ≠ [] := by
  intro h
  have hlen := congrArg List.length h
  simp [builtin_constraints, builtins] at hlen

/-- Claim C5 (amended): with no filter, or with an empty filter list
(falsy, treated like no filter), `builtin_constraints` returns the full
built-in catalog; with a non-empty filter it returns exactly the
built-in constraints whose tag is a member of the filter list. -/
theorem builtin_constraints_filter_semantics (symbol_table : String)
    (tf : List Tag) :
    builtin_constraints symbol_table none = builtins symbol_table ∧
    builtin_constraints symbol_table (some []) = builtins symbol_table ∧
    (tf ≠ [] → builtin_constraints symbol_table (some tf) =
      (builtins symbol_table).filter fun c => tf.contains c.tag) := by
  refine ⟨rfl, rfl, fun h => ?_⟩
  cases tf with
  | nil => exact absurd rfl h
  | cons t ts => rfl

/-- Witness for C5's theorem at the concrete filter `[b'File']`. -/
theorem builtin_constraints_filter_semantics_witness :
    builtin_constraints "nt" (some [[70, 105, 108, 101]]) =
      (builtins "nt").filter
        fun c => [[70, 105, 108, 101]].contains c.tag :=
  (builtin_constraints_filter_semantics "nt" [[70, 105, 108, 101]]).2.2
    (by decide)

/-- Claim C6: when the structured version metadata is unavailable and the
fallback chain is empty, the distinguisher raises `ValueError` instead
of returning a boolean. -/
theorem empty_fallback_chain_raises
    (version_check : Nat × Nat × Nat × Nat → Bool)
    (ss : SymbolSpaceModel) (symbol_table : String)
    (hmeta : ss.pe_version symbol_table = none) :
    os_distinguisher version_check [] ss symbol_table =
      .error .valueError := by
  simp [os_distinguisher, hmeta]

/-- Witness for C6 on a concrete metadata-free symbol space. -/
theorem empty_fallback_chain_raises_witness :
    os_distinguisher (fun v => tuple4_ge2 v (10, 0)) [] ssNoMeta "nt" =
      .error .valueError :=
  empty_fallback_chain_raises (fun v => tuple4_ge2 v (10, 0)) ssNoMeta
    "nt" rfl

/-- Claim C7: `generate_pool_scan` runs the scan-and-reconstruct pipeline
on the primary layer exactly when the Windows-10 classification returns
true, and on the primary layer's configured `memory_layer` (the
non-virtual layer backing it) when it returns false. -/
theorem scan_layer_follows_windows10 (ctx : ScanContext)
    (layer_name symbol_table : String) (cs : List PoolConstraint)
    (b10 b8 : Bool)
    (h10 : is_windows_10 ctx.symspace symbol_table = .ok b10)
    (h8 : is_windows_8_or_later ctx.symspace symbol_table = .ok b8) :
    generate_pool_scan ctx layer_name symbol_table cs =
      generate_pool_scan_body ctx
        (if b10 then layer_name
         else (ctx.layers layer_name).memory_layer)
        symbol_table cs b8 := by
  simp [generate_pool_scan, h10, h8]

/-- Witness for C7 on a Windows-10 image: the pipeline runs on the
primary layer. -/
theorem scan_layer_follows_windows10_witness :
    generate_pool_scan ctx0 "primary" "nt" [] =
      generate_pool_scan_body ctx0
        (if true then "primary" else (ctx0.layers "primary").memory_layer)
        "nt" [] true :=
  scan_layer_follows_windows10 ctx0 "primary" "nt" [] true true rfl rfl

/-- Claim C9: the whole pipeline is a pure function of the immutable
image context and the constraint list, so two scans of the same image
with the same constraints produce the same result sequence, element for
element and in order. -/
theorem scan_deterministic (ctx ctx2 : ScanContext)
    (ln ln2 st st2 : String) (cs cs2 : List PoolConstraint)
    (hctx : ctx = ctx2) (hln : ln = ln2) (hst : st = st2)
    (hcs : cs = cs2) :
    generate_pool_scan ctx ln st cs = generate_pool_scan ctx2 ln2 st2 cs2 := by
  subst hctx hln hst hcs
  rfl

/-- Witness for C9 on a concrete context. -/
theorem scan_deterministic_witness :
    generate_pool_scan ctx0 "primary" "nt" [] =
      generate_pool_scan ctx0 "primary" "nt" [] :=
  scan_deterministic ctx0 ctx0 "primary" "primary" "nt" "nt" [] []
    rfl rfl rfl rfl

/-- If the constraints handed to `buildConstraintLookup` contain a tag
already keyed in the accumulator, or repeat a tag among themselves, the
construction raises `ValueError`. -/
theorem buildConstraintLookup_error_of_dup (cs : List PoolConstraint) :
    ∀ acc : List (Tag × PoolConstraint),
      ((∃ c ∈ cs, ∃ q ∈ acc, q.1 = c.tag) ∨
        ¬ (cs.map PoolConstraint.tag).Nodup) →
      buildConstraintLookup cs acc = .error .valueError := by
  induction cs with
  | nil =>
    intro acc h
    rcases h with ⟨c, hc, _⟩ | hnd
    · exact absurd hc (by simp)
    · exact absurd (by simp) hnd
  | cons c rest ih =>
    intro acc h
    by_cases hmem : acc.any (fun q => q.1 == c.tag) = true
    · simp [buildConstraintLookup, hmem]
    · have hstep : buildConstraintLookup (c :: rest) acc =
          buildConstraintLookup rest (acc ++ [(c.tag, c)]) := by
        simp [buildConstraintLookup, hmem]
      rw [hstep]
      apply ih
      rcases h with ⟨c2, hc2, q, hq, hq1⟩ | hnd
      · rcases List.mem_cons.mp hc2 with rfl | hc2r
        · apply absurd _ hmem
          rw [List.any_eq_true]
          exact ⟨q, hq, beq_iff_eq.mpr hq1⟩
        · exact Or.inl ⟨c2, hc2r, q, List.mem_append_left _ hq, hq1⟩
      · by_cases hin : c.tag ∈ rest.map PoolConstraint.tag
        · obtain ⟨c3, hc3, htag⟩ := List.mem_map.mp hin
          exact Or.inl ⟨c3, hc3, (c.tag, c),
            List.mem_append_right _ (List.mem_singleton_self _), htag.symm⟩
        · refine Or.inr fun hnodup => hnd ?_
          rw [List.map_cons, List.nodup_cons]
          exact ⟨hin, hnodup⟩

/-- Claim C2: a constraint list repeating a tag makes `pool_scan` raise
`ValueError`, and it does so for every context and every layer — in
particular the error does not depend on the contents of the memory
layer, so it is raised before any byte of the layer is consulted. -/
theorem dup_tag_pool_scan_fails_before_io (cs : List PoolConstraint)
    (alignment : Nat)
    (hdup : ¬ (cs.map PoolConstraint.tag).Nodup) :
    ∀ (ctx : ScanContext) (layer_name symbol_table : String),
      pool_scan ctx layer_name symbol_table cs alignment =
        .error .valueError := by
  intro ctx ln st
  simp [pool_scan, buildConstraintLookup_error_of_dup cs [] (Or.inr hdup)]

/-- Witness for C2 on the concrete duplicate-tag list `csDup`. -/
theorem dup_tag_pool_scan_fails_before_io_witness :
    pool_scan ctx0 "primary" "nt" csDup 8 = .error .valueError :=
  dup_tag_pool_scan_fails_before_io csDup 8 (by decide) ctx0 "primary" "nt"

/-- The source's page-type check agrees with the spec's decode table on
every successfully read allocation-class code. -/
theorem pageChecksPass_eq_spec_decode (pt v : Nat) :
    pageChecksPass pt (Except.ok v) =
      Except.ok (decide (pt &&& spec_decode_class v ≠ 0)) := by
  rcases Nat.eq_zero_or_pos v with rfl | hpos
  · by_cases h : pt &&& PoolType.FREE ≠ 0 <;>
      simp [pageChecksPass, spec_decode_class, h]
  · have hv0 : v ≠ 0 := Nat.pos_iff_ne_zero.mp hpos
    rcases Nat.mod_two_eq_zero_or_one v with he | ho
    · by_cases h : pt &&& PoolType.PAGED ≠ 0 <;>
        simp [pageChecksPass, spec_decode_class, h, he, hv0, hpos]
    · have hne : v % 2 ≠ 0 := by omega
      by_cases h : pt &&& PoolType.NONPAGED ≠ 0 <;>
        simp [pageChecksPass, spec_decode_class, h, ho, hv0, hne]

/-- Claim C3: the allocation-class decode is total and mutually
exclusive — for every allocation-class code `v` and flag set `pt`, the
source's check equals "the single class assigned to `v` by the table
(0 is FREE, even positive is PAGED, odd is NONPAGED) overlaps `pt`";
and on a constraint whose only filter is the page-type filter, the hit
is accepted exactly when the decoded class is among the accepted
flags. -/
theorem page_type_filter_matches_spec_decode (pt v : Nat) :
    pageChecksPass pt (Except.ok v) =
      Except.ok (decide (pt &&& spec_decode_class v ≠ 0)) ∧
    ∀ (alignment : Nat) (c : PoolConstraint) (hd : PoolHeader),
      c.page_type = some pt → c.size = none → c.index = none →
      hd.PoolType = Except.ok v →
      checkHit alignment c hd =
        Except.ok (decide (pt &&& spec_decode_class v ≠ 0)) := by
  refine ⟨pageChecksPass_eq_spec_decode pt v, ?_⟩
  intro a c hd hpt hsz hix hv
  simp only [checkHit, hsz, hpt, hix, hv, pageChecksPass_eq_spec_decode]
  cases hD : decide (pt &&& spec_decode_class v ≠ 0) <;> simp [hD]

/-- Witness for C3: a PAGED-or-NONPAGED-or-FREE constraint accepts a
header whose allocation-class code is 0 (decoded FREE). -/
theorem page_type_filter_matches_spec_decode_witness :
    checkHit 8 cPage7 hdrZero = Except.ok true :=
  (page_type_filter_matches_spec_decode 7 0).2 8 cPage7 hdrZero
    rfl rfl rfl rfl

/-- A hit accepted by the validator was not rejected by the size filter:
the filter computed `ok false` on the constraint's bounds. -/
theorem sizeReject_of_accept (alignment : Nat) (c : PoolConstraint)
    (hd : PoolHeader) (lo hi : Option Nat)
    (hsz : c.size = some (lo, hi))
    (hacc : checkHit alignment c hd = .ok true) :
    sizeFilterReject alignment lo hi hd.BlockSize = .ok false := by
  simp only [checkHit, hsz] at hacc
  cases h : sizeFilterReject alignment lo hi hd.BlockSize with
  | error e => rw [h] at hacc; simp at hacc
  | ok b =>
    cases b with
    | false => rfl
    | true => rw [h] at hacc; simp at hacc

/-- Claim C4 (amended): for every hit accepted by the validator whose
constraint carries a size-bound pair, the effective size
`alignment * BlockSize` is at least every present NONZERO minimum and at
most every present NONZERO maximum; an absent bound — and, because of
the truthiness test, a bound whose value is 0 — accepts any value. -/
theorem accepted_hit_within_nonzero_size_bounds (alignment bs : Nat)
    (c : PoolConstraint) (hd : PoolHeader) (lo hi : Option Nat)
    (hacc : checkHit alignment c hd = .ok true)
    (hsz : c.size = some (lo, hi)) (hbs : hd.BlockSize = .ok bs) :
    (∀ l, lo = some l → l ≠ 0 → l ≤ alignment * bs) ∧
    (∀ u, hi = some u → u ≠ 0 → alignment * bs ≤ u) := by
  have hrej := sizeReject_of_accept alignment c hd lo hi hsz hacc
  rw [hbs] at hrej
  constructor
  · rintro l rfl hl
    simp only [sizeFilterReject, truthy, optVal] at hrej
    rw [if_pos (by simpa using hl)] at hrej
    by_cases hlt : alignment * bs < l
    · rw [if_pos hlt] at hrej; simp at hrej
    · omega
  · rintro u rfl hu
    simp only [sizeFilterReject, truthy, optVal] at hrej
    split at hrej
    · split at hrej
      · simp at hrej
      · split at hrej
        · simp at hrej
          omega
        · rename_i hcond
          exact absurd (by simpa using hu) hcond
    · split at hrej
      · simp at hrej
        omega
      · rename_i hcond
        exact absurd (by simpa using hu) hcond

/-- Witness for C4's amended theorem: a `File`-style constraint
(minimum 150) accepting a header with `BlockSize = 20` at alignment 8
has effective size `160 ≥ 150`. -/
theorem accepted_hit_within_nonzero_size_bounds_witness :
    checkHit 8 cSize150 hdrBS20 = .ok true ∧ 150 ≤ 8 * 20 :=
  ⟨rfl,
    (accepted_hit_within_nonzero_size_bounds 8 20 cSize150 hdrBS20
        (some 150) none rfl rfl rfl).1 150 rfl (by decide)⟩

/-- Claim C4 (counterexample): a constraint with a declared maximum size
bound of 0 accepts a header whose effective size is `8 * 5 = 40 > 0`,
so an accepted hit need not satisfy a declared (inclusive) maximum. -/
theorem size_bound_zero_max_counterexample :
    checkHit 8 cSizeMaxZero hdrBS5 = .ok true ∧
    cSizeMaxZero.size = some (none, some 0) ∧
    hdrBS5.BlockSize = .ok 5 ∧ 0 < 8 * 5 :=
  ⟨rfl, rfl, rfl, by decide⟩

/-- Every pair emitted by the scanner loop passed every present filter:
its validation returned `ok true`, so in particular no hit whose
validation raised `InvalidAddressException` is ever emitted. -/
theorem poolHeaderScannerCall_sound (alignment header_offset : Nat)
    (lookup : List (Tag × PoolConstraint)) (headerAt : Nat → PoolHeader)
    (hits : List (Nat × Tag)) :
    ∀ ch ∈ poolHeaderScannerCall alignment lookup headerAt header_offset
        hits, checkHit alignment ch.1 ch.2 = .ok true := by
  intro ch hch
  rw [poolHeaderScannerCall, List.mem_filterMap] at hch
  obtain ⟨op, _, hf⟩ := hch
  cases hfind : lookup.find? (fun q => q.1 == op.2) with
  | none =>
    rw [hfind] at hf
    exact Option.noConfusion hf
  | some q =>
    rw [hfind] at hf
    have hf2 : (match checkHit alignment q.2 (headerAt (op.1 - header_offset))
        with
        | Except.ok true => some (q.2, headerAt (op.1 - header_offset))
        | Except.ok false => none
        | Except.error _ => none) = some ch := hf
    cases hchk : checkHit alignment q.2 (headerAt (op.1 - header_offset))
      with
    | error e =>
      rw [hchk] at hf2
      exact Option.noConfusion hf2
    | ok b =>
      cases b with
      | false =>
        rw [hchk] at hf2
        exact Option.noConfusion hf2
      | true =>
        rw [hchk] at hf2
        have hf3 : some (q.2, headerAt (op.1 - header_offset)) = some ch :=
          hf2
        injection hf3 with h
        subst h
        exact hchk

/-- Claim C8: a hit whose validation raises `InvalidAddressException` is
dropped on its own — the scan result over any hit sequence containing it
is exactly the results of the hits before it followed by the results of
the hits after it — and every emitted pair comes from a validation that
completed with `ok true`, so no unreadable header terminates the scan or
is emitted. -/
theorem invalid_address_hit_skipped (alignment header_offset off : Nat)
    (pat : Tag) (q : Tag × PoolConstraint)
    (lookup : List (Tag × PoolConstraint)) (headerAt : Nat → PoolHeader)
    (hits1 hits2 : List (Nat × Tag))
    (hfind : lookup.find? (fun p => p.1 == pat) = some q)
    (herr : checkHit alignment q.2 (headerAt (off - header_offset)) =
      .error ()) :
    poolHeaderScannerCall alignment lookup headerAt header_offset
        (hits1 ++ (off, pat) :: hits2) =
      poolHeaderScannerCall alignment lookup headerAt header_offset hits1
        ++ poolHeaderScannerCall alignment lookup headerAt header_offset
          hits2 ∧
    ∀ ch ∈ poolHeaderScannerCall alignment lookup headerAt header_offset
        (hits1 ++ (off, pat) :: hits2),
      checkHit alignment ch.1 ch.2 = .ok true := by
  constructor
  · unfold poolHeaderScannerCall
    rw [List.filterMap_append, List.filterMap_cons]
    simp [hfind, herr]
  · exact poolHeaderScannerCall_sound alignment header_offset lookup
      headerAt _

/-- Witness for C8: a single unreadable hit produces the empty result
sequence (the concatenation of the empty results around it). -/
theorem invalid_address_hit_skipped_witness :
    poolHeaderScannerCall 8 lookupFile hdrAtUnreadable 4
        [(100, [70, 105, 108, 101])] =
      poolHeaderScannerCall 8 lookupFile hdrAtUnreadable 4 [] ++
        poolHeaderScannerCall 8 lookupFile hdrAtUnreadable 4 [] :=
  (invalid_address_hit_skipped 8 4 100 [70, 105, 108, 101]
    ([70, 105, 108, 101], cNeedsBlockSize) lookupFile hdrAtUnreadable
    [] [] rfl rfl).1

/-- Claim C10: a declared size or index bound whose value is 0 is falsy
in Python, so the validator skips it: the validation outcome with a
zero bound equals the outcome with that bound absent, for every header
and alignment — a zero bound never causes a rejection. -/
theorem zero_bound_treated_as_absent (alignment : Nat)
    (c : PoolConstraint) (hd : PoolHeader) (lo hi : Option Nat) :
    checkHit alignment { c with size := some (some 0, hi) } hd =
      checkHit alignment { c with size := some (none, hi) } hd ∧
    checkHit alignment { c with size := some (lo, some 0) } hd =
      checkHit alignment { c with size := some (lo, none) } hd ∧
    checkHit alignment { c with index := some (some 0, hi) } hd =
      checkHit alignment { c with index := some (none, hi) } hd ∧
    checkHit alignment { c with index := some (lo, some 0) } hd =
      checkHit alignment { c with index := some (lo, none) } hd := by
  refine ⟨?_, ?_, ?_, ?_⟩ <;>
    simp [checkHit, sizeFilterReject, indexFilterReject, truthy]

end Volatility
